import Mathlib

/-
Shallow embedding of the MinecraftBot server core:
  - src/server/mineflayer.ts (MinecraftBotManager)
  - src/server/routes.ts (WebSocket connect handling)
  - src/server/storage.ts (MemStorage)
  - the shared schema (connectionSchema)
JavaScript Maps become association lists, the mineflayer adapter becomes
a record of its construction arguments plus environment-chosen behaviour
flags, events from the game connection become an inductive type consumed
by processEvent, which mirrors setupBotEventHandlers.
-/

namespace MinecraftBot

/-- Lookup in an association list, mirroring JavaScript Map.get. -/
def alFind? {κ β : Type} [DecidableEq κ] : List (κ × β) → κ → Option β
  | [], _ => none
  | (k', v) :: t, k => if k' = k then some v else alFind? t k

/-- Insert or replace in an association list, mirroring JavaScript Map.set. -/
def alSet {κ β : Type} [DecidableEq κ] : List (κ × β) → κ → β → List (κ × β)
  | [], k, v => [(k, v)]
  | (k', v') :: t, k, v => if k' = k then (k, v) :: t else (k', v') :: alSet t k v

/-- Remove a key from an association list, mirroring JavaScript Map.delete. -/
def alErase {κ β : Type} [DecidableEq κ] (l : List (κ × β)) (k : κ) : List (κ × β) :=
  l.filter (fun p => decide (p.1 ≠ k))

@[simp]
theorem alFind?_alSet_self {κ β : Type} [DecidableEq κ] (l : List (κ × β)) (k : κ) (v : β) :
    alFind? (alSet l k v) k = some v := by
  induction l with
  | nil => simp [alSet, alFind?]
  | cons h t ih =>
    obtain ⟨k', v'⟩ := h
    by_cases hk : k' = k <;> simp [alSet, alFind?, hk, ih]

theorem alFind?_alSet_ne {κ β : Type} [DecidableEq κ] (l : List (κ × β)) (k k' : κ) (v : β)
    (h : k' ≠ k) : alFind? (alSet l k v) k' = alFind? l k' := by
  induction l with
  | nil => simp [alSet, alFind?, Ne.symm h]
  | cons hd t ih =>
    obtain ⟨k₀, v₀⟩ := hd
    by_cases hk : k₀ = k
    · subst hk
      simp [alSet, alFind?, Ne.symm h]
    · simp [alSet, alFind?, hk, ih]

@[simp]
theorem alFind?_alErase_self {κ β : Type} [DecidableEq κ] (l : List (κ × β)) (k : κ) :
    alFind? (alErase l k) k = none := by
  induction l with
  | nil => simp [alErase, alFind?]
  | cons hd t ih =>
    obtain ⟨k₀, v₀⟩ := hd
    by_cases hk : k₀ = k
    · simp [alErase, alFind?, hk] at ih ⊢
      exact ih
    · simp [alErase, alFind?, hk] at ih ⊢
      exact ih

/-- Boolean test that a list starts with the given sequence. -/
def startsSeq {α : Type} [DecidableEq α] : List α → List α → Bool
  | [], _ => true
  | _ :: _, [] => false
  | a :: as, b :: bs => decide (a = b) && startsSeq as bs

/-- Boolean test that a sequence occurs somewhere in a list,
modelling JavaScript String.includes on the character level. -/
def occursIn {α : Type} [DecidableEq α] (x : List α) : List α → Bool
  | [] => decide (x = [])
  | c :: l => startsSeq x (c :: l) || occursIn x l

/-- JavaScript s.includes(sub). -/
def strIncludes (s sub : String) : Bool := occursIn sub.data s.data

theorem startsSeq_append_left {α : Type} [DecidableEq α] (a b l : List α)
    (h : startsSeq (a ++ b) l = true) : startsSeq a l = true := by
  induction a generalizing l with
  | nil => rfl
  | cons x xs ih =>
    cases l with
    | nil => simp [startsSeq] at h
    | cons y ys =>
      simp [startsSeq] at h ⊢
      exact ⟨h.1, ih ys h.2⟩

theorem occursIn_cons {α : Type} [DecidableEq α] (x : List α) (c : α) (l : List α)
    (h : occursIn x l = true) : occursIn x (c :: l) = true := by
  simp [occursIn, h]

theorem occursIn_of_startsSeq {α : Type} [DecidableEq α] (x l : List α)
    (h : startsSeq x l = true) : occursIn x l = true := by
  cases l with
  | nil =>
    cases x with
    | nil => rfl
    | cons a as => simp [startsSeq] at h
  | cons c cs => simp [occursIn, h]

/-- Splitting a character list on a separator, mirroring JavaScript String.split. -/
def splitOnChar (c : Char) : List Char → List (List Char)
  | [] => [[]]
  | x :: xs =>
    let r := splitOnChar c xs
    if x == c then [] :: r
    else
      match r with
      | h :: t => (x :: h) :: t
      | [] => [[x]]

/-- Digit run to a natural number. -/
def digitsToNat (l : List Char) : Nat := l.foldl (fun a c => a * 10 + (c.toNat - 48)) 0

/-- JavaScript parseInt(s, 10): skip whitespace, optional sign, maximal digit run;
none models NaN. -/
def jsParseInt (s : String) : Option Int :=
  let l := s.data.dropWhile Char.isWhitespace
  let sr : Int × List Char :=
    match l with
    | '-' :: t => (-1, t)
    | '+' :: t => (1, t)
    | t => (1, t)
  let d := sr.2.takeWhile Char.isDigit
  if d.isEmpty then none else some (sr.1 * (digitsToNat d : Int))

/-- Chat entry stored in a session's bounded history (mineflayer.ts message handler). -/
structure ChatMessage where
  username : String
  content : String
  timestamp : Nat
deriving DecidableEq

/-- Persisted bot record (storage.ts / shared schema bots table). -/
structure BotRecord where
  id : Nat
  name : String
  server : String
  connected : Bool
  health : Int
  food : Int
deriving DecidableEq

/-- The mineflayer adapter handle: the arguments it was constructed with, whether the
in-world entity exists yet (bot.entity), and environment-chosen failure behaviour of
its quit() and end() calls. -/
structure GameBot where
  host : String
  port : Option Int
  username : String
  version : String
  auth : String
  hasEntity : Bool
  quitThrows : Bool
  endThrows : Bool
deriving DecidableEq

/-- ActiveBot record from mineflayer.ts. -/
structure ActiveBot where
  id : Nat
  name : String
  bot : GameBot
  server : String
  port : Option Int
  clientId : String
  health : ℚ
  food : ℚ
  chatMessages : List ChatMessage
deriving DecidableEq

/-- Values captured by the closures of setupBotEventHandlers; these fields of the
captured ActiveBot object are never reassigned after creation. -/
structure CapturedBot where
  id : Nat
  name : String
  server : String
  port : Option Int
  clientId : String
deriving DecidableEq

/-- Closure state of one setupBotEventHandlers invocation: the armed connection
timeout, the once-handlers already consumed, and a scheduled version-retry. -/
structure HandlerCtx where
  timeoutPending : Bool
  spawnConsumed : Bool
  errClearConsumed : Bool
  pendingReconnect : Option String
deriving DecidableEq

/-- Handler registration for one bot id. -/
structure HandlerRec where
  cap : CapturedBot
  ctx : HandlerCtx
deriving DecidableEq

/-- Kick reason as delivered by the game connection. -/
inductive KickReason where
  | str (s : String)
  | translateWith (t : String) (args : List String)
  | otherObj (json : String)
  | undecodable
deriving DecidableEq

/-- Outbound WebSocket pushes (shared schema WebSocketResponse). -/
inductive Push where
  | info (message : String)
  | connected (data : Option String)
  | disconnected
  | error (message : String)
  | botInfo (name : String) (count : Nat) (serverIp : String) (health food : ℚ)
  | chat (m : ChatMessage)
deriving DecidableEq

/-- Asynchronous events delivered to a session: mineflayer lifecycle events plus the
two timers of setupBotEventHandlers firing. -/
inductive BotEvent where
  | login
  | spawn
  | endEv (reason : String)
  | health (h f : ℚ)
  | message (username : Option String) (text : String) (now : Nat)
  | kicked (reason : KickReason)
  | errorEv (message : String)
  | timeoutFire
  | reconnectFire
deriving DecidableEq

/-- State owned by MinecraftBotManager plus the MemStorage instance. -/
structure ManagerState where
  activeBots : List (String × ActiveBot)
  ctxs : List (String × HandlerRec)
  clientSockets : List (String × Bool)
  storedBots : List (Nat × BotRecord)
  currentId : Nat
deriving DecidableEq

/-- Manager state plus the routes.ts clients map (clientId to its tracked botId). -/
structure SystemState where
  mgr : ManagerState
  clients : List (String × Option String)
deriving DecidableEq

/-- MemStorage.createBot: assign the next id, store the record with
connected=false, health=20, food=20. -/
def storageCreateBot (st : ManagerState) (name server : String) : ManagerState × BotRecord :=
  let newId := st.currentId
  let r : BotRecord := ⟨newId, name, server, false, 20, 20⟩
  ({ st with currentId := newId + 1, storedBots := alSet st.storedBots newId r }, r)

/-- MemStorage.updateBot: merge updates into the record when present. -/
def storageUpdateBot (st : ManagerState) (id : Nat) (f : BotRecord → BotRecord) : ManagerState :=
  match alFind? st.storedBots id with
  | none => st
  | some r => { st with storedBots := alSet st.storedBots id (f r) }

/-- MinecraftBotManager.sendToClient: deliver only when the socket is registered and open. -/
def sendToClient (sockets : List (String × Bool)) (clientId : String) (p : Push) :
    List (String × Push) :=
  match alFind? sockets clientId with
  | some true => [(clientId, p)]
  | _ => []

/-- MinecraftBotManager.disconnectBot: absent id returns false; if quit() throws the
catch returns false without further effect; otherwise delete the table entry and
persist connected=false. -/
def disconnectBot (st : ManagerState) (botId : String) : ManagerState × Bool :=
  match alFind? st.activeBots botId with
  | none => (st, false)
  | some e =>
    if e.bot.quitThrows then (st, false)
    else
      let st1 := { st with activeBots := alErase st.activeBots botId }
      (storageUpdateBot st1 e.id (fun r => { r with connected := false }), true)

/-- Closure state right after setupBotEventHandlers runs: the connection timeout is
armed, no once-handler consumed, no retry scheduled. -/
def initCtx : HandlerCtx := ⟨true, false, false, none⟩

def setCtx (st : ManagerState) (botId : String) (r : HandlerRec) : ManagerState :=
  { st with ctxs := alSet st.ctxs botId r }

def updateEntry (st : ManagerState) (botId : String) (f : ActiveBot → ActiveBot) :
    ManagerState :=
  match alFind? st.activeBots botId with
  | none => st
  | some e => { st with activeBots := alSet st.activeBots botId (f e) }

/-- Server address parsing in createBot: split on a colon when present, default
port 25565 otherwise. -/
def parseServerAddress (serverAddress : String) : String × Option Int :=
  if serverAddress.data.contains ':' then
    let parts := splitOnChar ':' serverAddress.data
    (String.mk (parts.headD []), jsParseInt (String.mk (parts.getD 1 [])))
  else (serverAddress, some 25565)

def defaultVersion : String := "1.21.4"
def attemptingMsg : String := "Attempting to connect to server..."

/-- Return or throw of MinecraftBotManager.createBot. -/
inductive CreateResult where
  | ok (botId : String)
  | err (message : String)
deriving DecidableEq

/-- Result of MinecraftBotManager.createBot: the new state, the pushes it emitted,
and either the fresh botId or the error it threw. -/
structure CreateOutcome where
  st : ManagerState
  pushes : List (String × Push)
  result : CreateResult
deriving DecidableEq

/-- MinecraftBotManager.createBot. The ctorErr parameter is the environment's choice
of whether mineflayer.createBot throws synchronously (with which message); now is
Date.now(). -/
def createBot (ctorErr : Option String) (now : Nat) (st : ManagerState)
    (botName serverAddress clientId : String) : CreateOutcome :=
  let sp := parseServerAddress serverAddress
  let botId := botName ++ "-" ++ toString now
  let created := storageCreateBot st botName serverAddress
  let st1 := created.1
  let pushes := sendToClient st1.clientSockets clientId (Push.connected (some attemptingMsg))
  match ctorErr with
  | some e => ⟨st1, pushes, CreateResult.err ("Failed to create bot: " ++ e)⟩
  | none =>
    let gb : GameBot := ⟨sp.1, sp.2, botName, defaultVersion, "offline", false, false, false⟩
    let ab : ActiveBot := ⟨created.2.id, botName, gb, sp.1, sp.2, clientId, 20, 20, []⟩
    let cap : CapturedBot := ⟨created.2.id, botName, sp.1, sp.2, clientId⟩
    let st2 := { st1 with activeBots := alSet st1.activeBots botId ab }
    ⟨setCtx st2 botId ⟨cap, initCtx⟩, pushes, CreateResult.ok botId⟩

/-- JavaScript Math.round on a rational x: the floor of x + 1/2, computed on the
numerator and denominator. -/
def jsRound (q : ℚ) : ℤ := Int.fdiv (2 * q.num + q.den) (2 * q.den)

/-- Bounded chat history append: push, then shift once when the length exceeds 100. -/
def appendChat (l : List ChatMessage) (m : ChatMessage) : List ChatMessage :=
  if 100 < (l ++ [m]).length then (l ++ [m]).tail else l ++ [m]

/-- Kick reason flattening in the kicked handler. -/
def flattenKickReason : KickReason → String
  | .str s => s
  | .translateWith t args => t ++ ": " ++ String.intercalate " " args
  | .otherObj json => json
  | .undecodable => "Unknown kick reason"

def portToString : Option Int → String
  | some n => toString n
  | none => "NaN"

def mkServerIp (server : String) (port : Option Int) : String :=
  server ++ ":" ++ portToString port

def refusedMsg : String := "Connection refused. The Minecraft server is not accepting connections. Please verify the server is running and the address is correct."
def resetMsg : String := "Connection reset by server. The Minecraft server may be offline or has forcibly closed the connection."
def timedOutMsg : String := "Connection timed out. The Minecraft server may be offline or behind a firewall."
def dnsMsg : String := "Could not resolve server address. Please check the server IP and try again."
def timeoutErrorMsg : String := "Connection timed out. The Minecraft server might be offline or unreachable. Please check the server address and try again later."

/-- User-friendly classification of non-version errors. -/
def classifyError (msg : String) : String :=
  if strIncludes msg "ECONNREFUSED" then refusedMsg
  else if strIncludes msg "ECONNRESET" then resetMsg
  else if strIncludes msg "ETIMEDOUT" then timedOutMsg
  else if strIncludes msg "getaddrinfo" then dnsMsg
  else "Bot error: " ++ msg

def isVerChar (c : Char) : Bool := c.isDigit || c == '.'

/-- Scan for the first match of the pattern: the literal "version " followed by a
nonempty run of digits and dots; the run is the captured group. -/
def extractVersionAux : List Char → Option (List Char)
  | [] => none
  | c :: cs =>
    if startsSeq ("version ".data) (c :: cs) then
      let grp := ((c :: cs).drop 8).takeWhile isVerChar
      if grp.isEmpty then extractVersionAux cs else some grp
    else extractVersionAux cs

def extractVersion (msg : String) : Option String :=
  (extractVersionAux msg.data).map fun l => String.mk l

def versionMismatchMsg (v : String) : String :=
  "Version mismatch. Server is running " ++ v ++ ". Attempting to reconnect with the correct version..."

/-- Shared tail of the error handler: push the classified message, then tear down. -/
def genericErrorPath (st : ManagerState) (botId : String) (cap : CapturedBot) (msg : String)
    (pre : List (String × Push)) : ManagerState × List (String × Push) :=
  let pushes := pre ++ sendToClient st.clientSockets cap.clientId (Push.error (classifyError msg))
  ((disconnectBot st botId).1, pushes)

/-- Replacement adapter built in the version-retry setTimeout from the captured
host, port and username, with the extracted version. -/
def reconnectBot (cap : CapturedBot) (v : String) : GameBot :=
  ⟨cap.server, cap.port, cap.name, v, "offline", false, false, false⟩

/-- Dispatch of one asynchronous event for a session, mirroring the handlers
registered by setupBotEventHandlers. Returns the new state and the pushes
delivered to clients, in order. -/
def processEvent (st : ManagerState) (botId : String) (ev : BotEvent) :
    ManagerState × List (String × Push) :=
  match alFind? st.ctxs botId with
  | none => (st, [])
  | some hr =>
    let cap := hr.cap
    let ctx := hr.ctx
    match ev with
    | .login => (st, [])
    | .spawn =>
      let stE := updateEntry st botId (fun e => { e with bot := { e.bot with hasEntity := true } })
      if ctx.spawnConsumed then (stE, [])
      else
        let pushes := sendToClient stE.clientSockets cap.clientId (Push.connected none)
        let stS := storageUpdateBot stE cap.id (fun r => { r with connected := true })
        (setCtx stS botId ⟨cap, { ctx with spawnConsumed := true, timeoutPending := false }⟩, pushes)
    | .endEv reason =>
      let pushes := sendToClient st.clientSockets cap.clientId
        (Push.error ("Bot disconnected: " ++ reason))
      ((disconnectBot st botId).1, pushes)
    | .health h f =>
      match alFind? st.activeBots botId with
      | none => (st, [])
      | some e =>
        let stH := { st with activeBots := alSet st.activeBots botId { e with health := h, food := f } }
        let stP := storageUpdateBot stH cap.id
          (fun r => { r with health := jsRound h, food := jsRound f })
        (stP, sendToClient stP.clientSockets cap.clientId
          (Push.botInfo cap.name 1 (mkServerIp cap.server cap.port) h f))
    | .message u text tnow =>
      let m : ChatMessage := ⟨u.getD "SERVER", text, tnow⟩
      let stM := updateEntry st botId (fun e => { e with chatMessages := appendChat e.chatMessages m })
      (stM, sendToClient stM.clientSockets cap.clientId (Push.chat m))
    | .kicked reason =>
      let pushes := sendToClient st.clientSockets cap.clientId
        (Push.error ("Kicked from server: " ++ flattenKickReason reason))
      ((disconnectBot st botId).1, pushes)
    | .errorEv msg =>
      let ctx1 := if ctx.errClearConsumed then ctx
        else { ctx with timeoutPending := false, errClearConsumed := true }
      let st1 := setCtx st botId ⟨cap, ctx1⟩
      if strIncludes msg "version" then
        match extractVersion msg with
        | some v =>
          let pushes := sendToClient st1.clientSockets cap.clientId
            (Push.error (versionMismatchMsg v))
          let eThrows :=
            match alFind? st1.activeBots botId with
            | some e => e.bot.endThrows
            | none => false
          if eThrows then genericErrorPath st1 botId cap msg pushes
          else (setCtx st1 botId ⟨cap, { ctx1 with pendingReconnect := some v }⟩, pushes)
        | none => genericErrorPath st1 botId cap msg []
      else genericErrorPath st1 botId cap msg []
    | .timeoutFire =>
      if ctx.timeoutPending then
        let st1 := setCtx st botId ⟨cap, { ctx with timeoutPending := false }⟩
        match alFind? st1.activeBots botId with
        | none => (st1, [])
        | some e =>
          if e.bot.hasEntity then (st1, [])
          else
            let pushes := sendToClient st1.clientSockets cap.clientId (Push.error timeoutErrorMsg)
            ((disconnectBot st1 botId).1, pushes)
      else (st, [])
    | .reconnectFire =>
      match ctx.pendingReconnect with
      | none => (st, [])
      | some v =>
        match alFind? st.activeBots botId with
        | some e =>
          let st1 := { st with activeBots := alSet st.activeBots botId { e with bot := reconnectBot cap v } }
          (setCtx st1 botId ⟨cap, initCtx⟩, [])
        | none => (setCtx st botId ⟨cap, { ctx with pendingReconnect := none }⟩, [])

/-- Run a list of events for one session, concatenating the emitted pushes. -/
def runEvents (st : ManagerState) (botId : String) : List BotEvent →
    ManagerState × List (String × Push)
  | [] => (st, [])
  | ev :: evs =>
    let r := processEvent st botId ev
    let r' := runEvents r.1 botId evs
    (r'.1, r.2 ++ r'.2)

/-- Run a list of chat-message events for one session. -/
def runChatEvents (st : ManagerState) (botId : String) :
    List (Option String × String × Nat) → ManagerState
  | [] => st
  | (u, t, n) :: rest => runChatEvents (processEvent st botId (.message u t n)).1 botId rest

/-- Payload of an inbound connect message (shared schema connectionSchema). -/
structure ConnectPayload where
  botName : String
  botCount : Int
  serverIp : String
deriving DecidableEq

def portOk (d : List Char) : Bool :=
  decide (1 ≤ d.length) && decide (d.length ≤ 5) && d.all Char.isDigit

def hostChar (c : Char) : Bool := c.isAlpha || c.isDigit || c == '.' || c == '-'

/-- Acceptance of the host part: a nonempty run over letters, digits, dot and
hyphen, then a dot, then at least two letters, anchored at both ends. -/
def hostOk (a : List Char) : Bool :=
  let r := a.reverse
  let t := r.takeWhile Char.isAlpha
  decide (2 ≤ t.length) &&
    (match r.drop t.length with
     | '.' :: p => decide (p ≠ []) && p.all hostChar
     | _ => false)

/-- The serverIp regex of connectionSchema. -/
def serverIpOk (s : String) : Bool :=
  match splitOnChar ':' s.data with
  | [a] => hostOk a
  | [a, d] => hostOk a && portOk d
  | _ => false

/-- connectionSchema.safeParse succeeding: name at least 3 characters, botCount an
integer in 1..10, serverIp matching the address pattern. -/
def validConnection (p : ConnectPayload) : Bool :=
  decide (3 ≤ p.botName.length) && decide (1 ≤ p.botCount) && decide (p.botCount ≤ 10) &&
    serverIpOk p.serverIp

/-- The connect case of the routes.ts message handler: look up the client, validate,
create the bot and remember its id on the client, or report the failure. -/
def handleConnect (ctorErr : Option String) (now : Nat) (sys : SystemState)
    (clientId : String) (p : ConnectPayload) : SystemState × List (String × Push) :=
  match alFind? sys.clients clientId with
  | none => (sys, [])
  | some _ =>
    if validConnection p then
      let out := createBot ctorErr now sys.mgr p.botName p.serverIp clientId
      match out.result with
      | CreateResult.ok botId =>
        ({ mgr := out.st, clients := alSet sys.clients clientId (some botId) }, out.pushes)
      | CreateResult.err e =>
        ({ mgr := out.st, clients := sys.clients },
         out.pushes ++ [(clientId, Push.error ("Failed to create bot: " ++ e))])
    else (sys, [(clientId, Push.error "Invalid connection details")])

/-! Supporting lemmas. -/

@[simp]
theorem storageUpdateBot_activeBots (st : ManagerState) (i : Nat) (f : BotRecord → BotRecord) :
    (storageUpdateBot st i f).activeBots = st.activeBots := by
  unfold storageUpdateBot
  split <;> rfl

@[simp]
theorem storageUpdateBot_ctxs (st : ManagerState) (i : Nat) (f : BotRecord → BotRecord) :
    (storageUpdateBot st i f).ctxs = st.ctxs := by
  unfold storageUpdateBot
  split <;> rfl

@[simp]
theorem storageUpdateBot_clientSockets (st : ManagerState) (i : Nat) (f : BotRecord → BotRecord) :
    (storageUpdateBot st i f).clientSockets = st.clientSockets := by
  unfold storageUpdateBot
  split <;> rfl

theorem appendChat_length_le (l : List ChatMessage) (m : ChatMessage)
    (h : l.length ≤ 100) : (appendChat l m).length ≤ 100 := by
  unfold appendChat
  by_cases h' : 100 < (l ++ [m]).length
  · rw [if_pos h']
    simp only [List.length_tail, List.length_append, List.length_singleton]
    omega
  · rw [if_neg h']
    simp only [not_lt, List.length_append, List.length_singleton] at h'
    simp only [List.length_append, List.length_singleton]
    omega

theorem appendChat_at_cap (l : List ChatMessage) (m : ChatMessage) (h : l.length = 100) :
    appendChat l m = l.tail ++ [m] := by
  unfold appendChat
  have hlen : 100 < (l ++ [m]).length := by
    simp [List.length_append, h]
  rw [if_pos hlen]
  cases l with
  | nil => simp at h
  | cons a t => simp

theorem processEvent_message (st : ManagerState) (botId : String) (hr : HandlerRec)
    (e : ActiveBot) (u : Option String) (text : String) (tnow : Nat)
    (hctx : alFind? st.ctxs botId = some hr)
    (he : alFind? st.activeBots botId = some e) :
    processEvent st botId (BotEvent.message u text tnow) =
      ({ st with
          activeBots := alSet st.activeBots botId
            ({ e with chatMessages := appendChat e.chatMessages ⟨u.getD "SERVER", text, tnow⟩ }) },
       sendToClient st.clientSockets hr.cap.clientId (Push.chat ⟨u.getD "SERVER", text, tnow⟩)) := by
  simp [processEvent, hctx, updateEntry, he]

theorem runChatEvents_bounded (botId : String) (msgs : List (Option String × String × Nat)) :
    ∀ (st : ManagerState) (hr : HandlerRec) (e : ActiveBot),
      alFind? st.ctxs botId = some hr → alFind? st.activeBots botId = some e →
      e.chatMessages.length ≤ 100 →
      ∀ e', alFind? (runChatEvents st botId msgs).activeBots botId = some e' →
        e'.chatMessages.length ≤ 100 := by
  induction msgs with
  | nil =>
    intro st hr e hctx he hlen e' h'
    rw [runChatEvents] at h'
    rw [he] at h'
    cases h'
    exact hlen
  | cons m rest ih =>
    intro st hr e hctx he hlen e' h'
    obtain ⟨u, t, n⟩ := m
    rw [runChatEvents, processEvent_message st botId hr e u t n hctx he] at h'
    exact ih
      ({ st with
          activeBots := alSet st.activeBots botId
            ({ e with chatMessages := appendChat e.chatMessages ⟨u.getD "SERVER", t, n⟩ }) })
      hr ({ e with chatMessages := appendChat e.chatMessages ⟨u.getD "SERVER", t, n⟩ })
      hctx (alFind?_alSet_self st.activeBots botId _)
      (appendChat_length_le _ _ hlen) e' h'

theorem startsSeq_version_of_space (l : List Char)
    (h : startsSeq ("version ".data) l = true) : startsSeq ("version".data) l = true := by
  have hsplit : ("version ".data) = ("version".data) ++ [' '] := by decide
  exact startsSeq_append_left _ _ _ (hsplit ▸ h)

theorem extractVersionAux_occurs (l : List Char) (g : List Char)
    (h : extractVersionAux l = some g) : occursIn ("version".data) l = true := by
  induction l with
  | nil => simp [extractVersionAux] at h
  | cons c cs ih =>
    rw [extractVersionAux] at h
    by_cases hp : startsSeq ("version ".data) (c :: cs) = true
    · exact occursIn_of_startsSeq _ _ (startsSeq_version_of_space _ hp)
    · rw [if_neg hp] at h
      exact occursIn_cons _ _ _ (ih h)

theorem strIncludes_version_of_extract (msg v : String) (h : extractVersion msg = some v) :
    strIncludes msg "version" = true := by
  unfold extractVersion at h
  cases hx : extractVersionAux msg.data with
  | none => rw [hx] at h; simp at h
  | some g => exact extractVersionAux_occurs _ g hx

/-! Concrete states used by witnesses and counterexamples. -/

def demoGameBot : GameBot :=
  ⟨"play.example.com", some 25565, "Scout", "1.21.4", "offline", false, false, false⟩

def demoCap : CapturedBot := ⟨1, "Scout", "play.example.com", some 25565, "c"⟩

def demoEntry : ActiveBot :=
  ⟨1, "Scout", demoGameBot, "play.example.com", some 25565, "c", 20, 20, []⟩

def demoRecord : BotRecord := ⟨1, "Scout", "play.example.com", false, 20, 20⟩

def demoState : ManagerState :=
  ⟨[("b", demoEntry)], [("b", ⟨demoCap, initCtx⟩)], [("c", true)], [(1, demoRecord)], 2⟩

def throwBot : GameBot :=
  ⟨"play.example.com", some 25565, "Scout", "1.21.4", "offline", false, true, false⟩

def throwEntry : ActiveBot :=
  ⟨1, "Scout", throwBot, "play.example.com", some 25565, "c", 20, 20, []⟩

def throwState : ManagerState :=
  ⟨[("b", throwEntry)], [("b", ⟨demoCap, initCtx⟩)], [("c", true)], [(1, demoRecord)], 2⟩

def emptyMgr : ManagerState := ⟨[], [], [("c", true)], [], 1⟩

def payloadA : ConnectPayload := ⟨"Scout", 1, "play.example.com"⟩

def badPayload : ConnectPayload := ⟨"ab", 1, "play.example.com"⟩

def sysA : SystemState := ⟨emptyMgr, [("c", none)]⟩

def sysB : SystemState :=
  ⟨⟨[("Scout-1000", demoEntry)], [("Scout-1000", ⟨demoCap, initCtx⟩)], [("c", true)],
    [(1, demoRecord)], 2⟩, [("c", some "Scout-1000")]⟩

/-- Rational 21/2 = 10.5, a half-heart health value as mineflayer reports them. -/
def halfHp : ℚ := ⟨21, 2, by decide, by decide⟩

/-! Claim theorems. -/

/-- C1: for every session and every sequence of incoming chat-message events, the
session's chat history length never exceeds 100 entries, and appending a message
when the history is at the cap evicts exactly the oldest entry (FIFO order). -/
theorem chat_history_cap_fifo (st : ManagerState) (botId : String) (hr : HandlerRec)
    (e : ActiveBot)
    (hctx : alFind? st.ctxs botId = some hr)
    (he : alFind? st.activeBots botId = some e)
    (hlen : e.chatMessages.length ≤ 100) :
    (∀ msgs e', alFind? (runChatEvents st botId msgs).activeBots botId = some e' →
        e'.chatMessages.length ≤ 100) ∧
    (∀ u text tnow, e.chatMessages.length = 100 →
        alFind? (processEvent st botId (BotEvent.message u text tnow)).1.activeBots botId =
          some ({ e with chatMessages :=
            e.chatMessages.tail ++ [⟨u.getD "SERVER", text, tnow⟩] })) := by
  constructor
  · intro msgs e' h'
    exact runChatEvents_bounded botId msgs st hr e hctx he hlen e' h'
  · intro u text tnow hcap
    rw [processEvent_message st botId hr e u text tnow hctx he]
    simp only [appendChat_at_cap _ _ hcap]
    exact alFind?_alSet_self st.activeBots botId _

/-- C1 witness: a concrete chat event on a live session keeps the history within
the 100-entry bound. -/
theorem chat_history_cap_fifo_witness :
    ({ demoEntry with chatMessages := [⟨"A", "hi", 1⟩] } : ActiveBot).chatMessages.length ≤ 100 :=
  (chat_history_cap_fifo demoState "b" ⟨demoCap, initCtx⟩ demoEntry (by decide) (by decide)
    (by decide)).1 [(some "A", "hi", 1)]
    ({ demoEntry with chatMessages := [⟨"A", "hi", 1⟩] }) (by decide)

/-- C5 counterexample: when GameSession construction throws synchronously, the call
fails and no session entry remains, but the persisted bot record created just
before construction is left behind, contradicting the claim that no persisted bot
record remains. -/
theorem create_failure_record_remains :
    (createBot (some "boom") 5 emptyMgr "Scout" "play.example.com" "c").result =
      CreateResult.err "Failed to create bot: boom" ∧
    (createBot (some "boom") 5 emptyMgr "Scout" "play.example.com" "c").st.activeBots = [] ∧
    (createBot (some "boom") 5 emptyMgr "Scout" "play.example.com" "c").st.storedBots ≠ [] := by
  decide

/-- C5 amended: when GameSession construction throws synchronously, createBot fails
with an error carrying the underlying cause and leaves no session-table entry and
no handler registration, but the persisted bot record created before construction
remains in storage (it is not rolled back). -/
theorem create_failure_amended (e : String) (now : Nat) (st : ManagerState)
    (botName serverAddress clientId : String) :
    (createBot (some e) now st botName serverAddress clientId).result =
      CreateResult.err ("Failed to create bot: " ++ e) ∧
    (createBot (some e) now st botName serverAddress clientId).st.activeBots = st.activeBots ∧
    (createBot (some e) now st botName serverAddress clientId).st.ctxs = st.ctxs ∧
    alFind? (createBot (some e) now st botName serverAddress clientId).st.storedBots
        st.currentId = some ⟨st.currentId, botName, serverAddress, false, 20, 20⟩ := by
  refine ⟨rfl, rfl, rfl, ?_⟩
  simp [createBot, storageCreateBot]

/-- C9: after three chat events and a kicked event with the structured reason
translate multiplayer.disconnected.generic with Server closed, the owning client
receives three chat pushes followed by exactly one error push embedding
multiplayer.disconnected.generic: Server closed, and the session is afterwards
absent from the table. -/
theorem kick_scenario_trace :
    (runEvents demoState "b"
      [BotEvent.message (some "A") "hi1" 1, BotEvent.message (some "A") "hi2" 2,
       BotEvent.message (some "A") "hi3" 3,
       BotEvent.kicked
         (KickReason.translateWith "multiplayer.disconnected.generic" ["Server closed"])]).2 =
      [("c", Push.chat ⟨"A", "hi1", 1⟩), ("c", Push.chat ⟨"A", "hi2", 2⟩),
       ("c", Push.chat ⟨"A", "hi3", 3⟩),
       ("c", Push.error "Kicked from server: multiplayer.disconnected.generic: Server closed")] ∧
    strIncludes "Kicked from server: multiplayer.disconnected.generic: Server closed"
      "multiplayer.disconnected.generic: Server closed" = true ∧
    alFind? (runEvents demoState "b"
      [BotEvent.message (some "A") "hi1" 1, BotEvent.message (some "A") "hi2" 2,
       BotEvent.message (some "A") "hi3" 3,
       BotEvent.kicked
         (KickReason.translateWith "multiplayer.disconnected.generic" ["Server closed"])]).1.activeBots
      "b" = none := by
  refine ⟨by decide, by decide, by decide⟩

/-- C10: every createBot call pushes a connected-typed message carrying the
attempting-to-connect payload to the owning client, and it does so whatever the
construction outcome is, so a client can receive a connected-typed push for a
session that never successfully connects. -/
theorem connected_push_on_every_create (ctorErr : Option String) (now : Nat)
    (st : ManagerState) (botName serverAddress clientId : String)
    (hsock : alFind? st.clientSockets clientId = some true) :
    (createBot ctorErr now st botName serverAddress clientId).pushes =
      [(clientId, Push.connected (some attemptingMsg))] := by
  cases ctorErr <;> simp [createBot, storageCreateBot, sendToClient, hsock]

/-- C10 witness: the connected-typed push is emitted even when construction throws. -/
theorem connected_push_on_every_create_witness :
    (createBot (some "boom") 5 demoState "Scout" "play.example.com" "c").pushes =
      [("c", Push.connected (some attemptingMsg))] :=
  connected_push_on_every_create (some "boom") 5 demoState "Scout" "play.example.com" "c"
    (by decide)

/-- C2 counterexample: two successful connect requests from the same client leave
two live sessions in the active-session table owned by that client, contradicting
the claim that each client owns at most one live session at every reachable state. -/
theorem second_connect_leaves_two_sessions :
    2 ≤ ((handleConnect none 2000 (handleConnect none 1000 sysA "c" payloadA).1 "c"
        payloadA).1.mgr.activeBots.filter (fun q => decide (q.2.clientId = "c"))).length := by
  decide

/-- C2 amended: a successful connect always installs a fresh session for the
requesting client and leaves every previously existing session, including one
already owned by the same client, untouched in the table; only the gateway's
per-connection tracked botId is replaced, so a second connect from the same client
leaves two live sessions owned by that client. -/
theorem connect_keeps_existing_sessions (sys : SystemState) (c : String) (t : Option String)
    (p : ConnectPayload) (now : Nat)
    (hc : alFind? sys.clients c = some t)
    (hval : validConnection p = true) :
    (∃ e', alFind? (handleConnect none now sys c p).1.mgr.activeBots
        (p.botName ++ "-" ++ toString now) = some e' ∧ e'.clientId = c) ∧
    (∀ b eb, alFind? sys.mgr.activeBots b = some eb →
        b ≠ p.botName ++ "-" ++ toString now →
        alFind? (handleConnect none now sys c p).1.mgr.activeBots b = some eb) := by
  have hmain : (handleConnect none now sys c p).1.mgr.activeBots =
      alSet sys.mgr.activeBots (p.botName ++ "-" ++ toString now)
        (⟨sys.mgr.currentId, p.botName, ⟨(parseServerAddress p.serverIp).1,
            (parseServerAddress p.serverIp).2, p.botName, defaultVersion, "offline",
            false, false, false⟩,
          (parseServerAddress p.serverIp).1, (parseServerAddress p.serverIp).2, c, 20, 20, []⟩) := by
    simp [handleConnect, hc, hval, createBot, storageCreateBot, setCtx]
  constructor
  · refine ⟨⟨sys.mgr.currentId, p.botName, ⟨(parseServerAddress p.serverIp).1,
        (parseServerAddress p.serverIp).2, p.botName, defaultVersion, "offline",
        false, false, false⟩,
      (parseServerAddress p.serverIp).1, (parseServerAddress p.serverIp).2, c, 20, 20, []⟩,
      ?_, rfl⟩
    rw [hmain]
    exact alFind?_alSet_self _ _ _
  · intro b eb hb hne
    rw [hmain, alFind?_alSet_ne _ _ _ _ hne]
    exact hb

/-- C2 witness: a second connect from client c leaves the first session live in the
table. -/
theorem connect_keeps_existing_sessions_witness :
    alFind? (handleConnect none 2000 sysB "c" payloadA).1.mgr.activeBots "Scout-1000" =
      some demoEntry :=
  (connect_keeps_existing_sessions sysB "c" (some "Scout-1000") payloadA 2000 (by decide)
    (by decide)).2 "Scout-1000" demoEntry (by decide) (by decide)

/-- C6 counterexample: when the adapter's quit() throws, disconnectBot returns false
and leaves the session in the table, contradicting the claim that the teardown
error is swallowed and the session is removed and its record updated. -/
theorem disconnect_throwing_quit_leaves_session :
    (disconnectBot throwState "b").2 = false ∧
    alFind? (disconnectBot throwState "b").1.activeBots "b" = some throwEntry ∧
    alFind? (disconnectBot throwState "b").1.storedBots 1 = some demoRecord := by
  decide

/-- C6 amended: disconnectBot never throws; on an absent id it returns false; when
the session is present and teardown succeeds it removes the session, persists
connected=false and returns true, so an immediately repeated call returns false;
but when teardown throws, the call returns false leaving the table and the record
untouched. -/
theorem disconnect_behavior (st : ManagerState) (botId : String) :
    (alFind? st.activeBots botId = none → disconnectBot st botId = (st, false)) ∧
    (∀ e, alFind? st.activeBots botId = some e → e.bot.quitThrows = false →
      (disconnectBot st botId).2 = true ∧
      alFind? (disconnectBot st botId).1.activeBots botId = none ∧
      (disconnectBot (disconnectBot st botId).1 botId).2 = false ∧
      ∀ r, alFind? st.storedBots e.id = some r →
        alFind? (disconnectBot st botId).1.storedBots e.id =
          some ({ r with connected := false })) ∧
    (∀ e, alFind? st.activeBots botId = some e → e.bot.quitThrows = true →
      disconnectBot st botId = (st, false)) := by
  refine ⟨?_, ?_, ?_⟩
  · intro h
    simp [disconnectBot, h]
  · intro e he hq
    refine ⟨?_, ?_, ?_, ?_⟩
    · simp [disconnectBot, he, hq]
    · simp [disconnectBot, he, hq]
    · simp [disconnectBot, he, hq]
    · intro r hrr
      simp [disconnectBot, he, hq, storageUpdateBot, alErase, hrr]
  · intro e he hq
    simp [disconnectBot, he, hq]

/-- C6 witness: on a live session whose teardown succeeds, disconnectBot returns
true and removes the session. -/
theorem disconnect_behavior_witness :
    (disconnectBot demoState "b").2 = true ∧
    alFind? (disconnectBot demoState "b").1.activeBots "b" = none :=
  ⟨((disconnect_behavior demoState "b").2.1 demoEntry (by decide) (by decide)).1,
   ((disconnect_behavior demoState "b").2.1 demoEntry (by decide) (by decide)).2.1⟩

/-- C7: a connect message whose payload violates the constraints (name shorter than
3 characters, botCount outside 1..10, or serverIp not matching the address
pattern) is rejected with an error push and changes nothing: no session entry and
no persisted record is created and no GameSession construction is reached. -/
theorem invalid_connect_rejected (ctorErr : Option String) (now : Nat) (sys : SystemState)
    (clientId : String) (p : ConnectPayload) (t : Option String)
    (hc : alFind? sys.clients clientId = some t)
    (hbad : p.botName.length < 3 ∨ p.botCount < 1 ∨ 10 < p.botCount ∨
      serverIpOk p.serverIp = false) :
    handleConnect ctorErr now sys clientId p =
      (sys, [(clientId, Push.error "Invalid connection details")]) := by
  have hval : validConnection p = false := by
    rcases hbad with h | h | h | h
    · have h3 : ¬ (3 ≤ p.botName.length) := by omega
      simp [validConnection, h3]
    · have h1 : ¬ ((1 : ℤ) ≤ p.botCount) := by omega
      simp [validConnection, h1]
    · have h10 : ¬ (p.botCount ≤ (10 : ℤ)) := by omega
      simp [validConnection, h10]
    · simp [validConnection, h]
  simp [handleConnect, hc, hval]

/-- C7 witness: a connect with the 2-character name ab is rejected without any
state change. -/
theorem invalid_connect_rejected_witness :
    handleConnect none 7 sysA "c" badPayload =
      (sysA, [("c", Push.error "Invalid connection details")]) :=
  invalid_connect_rejected none 7 sysA "c" badPayload none (by decide) (Or.inl (by decide))

/-- C3: on an error event whose message matches the protocol-version-mismatch
pattern, the session stays in the table, and when the scheduled reconnect fires
the session is still present under the same sessionId with its adapter handle
replaced in place by a new GameSession constructed with the extracted version
string. -/
theorem version_mismatch_recovery (st : ManagerState) (sid : String) (hr : HandlerRec)
    (e : ActiveBot) (v msg : String)
    (hctx : alFind? st.ctxs sid = some hr)
    (he : alFind? st.activeBots sid = some e)
    (hend : e.bot.endThrows = false)
    (hv : extractVersion msg = some v) :
    alFind? (processEvent st sid (BotEvent.errorEv msg)).1.activeBots sid = some e ∧
    alFind? (processEvent (processEvent st sid (BotEvent.errorEv msg)).1 sid
        BotEvent.reconnectFire).1.activeBots sid =
      some ({ e with bot := reconnectBot hr.cap v }) ∧
    (reconnectBot hr.cap v).version = v := by
  have hinc : strIncludes msg "version" = true := strIncludes_version_of_extract msg v hv
  have hstep1 : (processEvent st sid (BotEvent.errorEv msg)).1 =
      setCtx (setCtx st sid
          ⟨hr.cap, if hr.ctx.errClearConsumed then hr.ctx
            else { hr.ctx with timeoutPending := false, errClearConsumed := true }⟩) sid
        ⟨hr.cap, { (if hr.ctx.errClearConsumed then hr.ctx
            else { hr.ctx with timeoutPending := false, errClearConsumed := true }) with
          pendingReconnect := some v }⟩ := by
    simp [processEvent, hctx, hinc, hv, setCtx, he, hend]
  refine ⟨?_, ?_, rfl⟩
  · rw [hstep1]
    simpa [setCtx] using he
  · rw [hstep1]
    simp [processEvent, setCtx, alFind?_alSet_self, he, reconnectBot]

/-- C3 witness: the concrete outdated-server scenario with extracted version
1.20.1 keeps the session and installs the replacement adapter. -/
theorem version_mismatch_recovery_witness :
    alFind? (processEvent (processEvent demoState "b"
        (BotEvent.errorEv "outdated server! still on version 1.20.1")).1 "b"
        BotEvent.reconnectFire).1.activeBots "b" =
      some ({ demoEntry with bot := reconnectBot demoCap "1.20.1" }) :=
  (version_mismatch_recovery demoState "b" ⟨demoCap, initCtx⟩ demoEntry "1.20.1"
    "outdated server! still on version 1.20.1" (by decide) (by decide) (by decide)
    (by decide)).2.1

/-- C4 counterexample: a health event carrying the in-range value 10.5 produces a
botInfo push whose health field is the raw 10.5, not a value rounded to the
nearest integer, contradicting the claim that the values exposed in the botInfo
push are rounded. -/
theorem health_push_carries_unrounded_values :
    (processEvent demoState "b" (BotEvent.health halfHp 10)).2 =
      [("c", Push.botInfo "Scout" 1 "play.example.com:25565" halfHp 10)] ∧
    halfHp ≠ ((jsRound halfHp : ℤ) : ℚ) ∧
    halfHp.den = 2 := by
  refine ⟨by decide, by decide, by decide⟩

/-- C4 amended: on a health event the in-memory values are stored exactly as
received (no clamping, so they lie in 0..20 exactly when the event values do),
the persisted record receives the values rounded to the nearest integer, and the
botInfo push carries the raw unrounded event values. -/
theorem health_update_behavior (st : ManagerState) (botId : String) (hr : HandlerRec)
    (e : ActiveBot) (h f : ℚ)
    (hctx : alFind? st.ctxs botId = some hr)
    (he : alFind? st.activeBots botId = some e) :
    alFind? (processEvent st botId (BotEvent.health h f)).1.activeBots botId =
      some ({ e with health := h, food := f }) ∧
    (∀ r, alFind? st.storedBots hr.cap.id = some r →
      alFind? (processEvent st botId (BotEvent.health h f)).1.storedBots hr.cap.id =
        some ({ r with health := jsRound h, food := jsRound f })) ∧
    (processEvent st botId (BotEvent.health h f)).2 =
      sendToClient st.clientSockets hr.cap.clientId
        (Push.botInfo hr.cap.name 1 (mkServerIp hr.cap.server hr.cap.port) h f) := by
  refine ⟨?_, ?_, ?_⟩
  · simp [processEvent, hctx, he, alFind?_alSet_self]
  · intro r hrr
    simp [processEvent, hctx, he, storageUpdateBot, hrr, alFind?_alSet_self]
  · simp [processEvent, hctx, he]

/-- C4 amended witness: a concrete in-range health update stores the received
values in memory. -/
theorem health_update_behavior_witness :
    alFind? (processEvent demoState "b" (BotEvent.health 7 9)).1.activeBots "b" =
      some ({ demoEntry with health := 7, food := 9 }) :=
  (health_update_behavior demoState "b" ⟨demoCap, initCtx⟩ demoEntry 7 9 (by decide)
    (by decide)).1

/-- C8: when the connection timeout fires while the session is still in the table
and has not spawned, the owning client receives exactly one timeout-class error
push and the session is torn down (removed from the table). -/
theorem connection_timeout_teardown (st : ManagerState) (botId : String) (hr : HandlerRec)
    (e : ActiveBot)
    (hctx : alFind? st.ctxs botId = some hr)
    (hp : hr.ctx.timeoutPending = true)
    (he : alFind? st.activeBots botId = some e)
    (hent : e.bot.hasEntity = false)
    (hq : e.bot.quitThrows = false)
    (hsock : alFind? st.clientSockets hr.cap.clientId = some true) :
    alFind? (processEvent st botId BotEvent.timeoutFire).1.activeBots botId = none ∧
    (processEvent st botId BotEvent.timeoutFire).2 =
      [(hr.cap.clientId, Push.error timeoutErrorMsg)] := by
  constructor
  · simp [processEvent, hctx, hp, setCtx, he, hent, disconnectBot, hq]
  · simp [processEvent, hctx, hp, setCtx, he, hent, disconnectBot, hq, sendToClient, hsock]

/-- C8 witness: the timeout firing on a live unspawned session removes it and
pushes the timeout error. -/
theorem connection_timeout_teardown_witness :
    alFind? (processEvent demoState "b" BotEvent.timeoutFire).1.activeBots "b" = none ∧
    (processEvent demoState "b" BotEvent.timeoutFire).2 =
      [("c", Push.error timeoutErrorMsg)] :=
  connection_timeout_teardown demoState "b" ⟨demoCap, initCtx⟩ demoEntry (by decide)
    (by decide) (by decide) (by decide) (by decide) (by decide)

end MinecraftBot
